import Mathlib

/-!
Verification of the resilient batch-scanning engine of the
niche-research-automation repository, against its natural-language
specification.  The Lean definitions below are shallow embeddings of the
Python functions in `src/full_scan.py` and `src/niche_scanner.py`:
numbers are modelled by `ℚ`, Python `None`-able strings by `Option String`,
the pandas data frame of weekly popularity values by `List ℚ`, and the
checkpoint CSV file by `Option (List ScanResult)` (the file's contents, or
`none` when the file does not exist).
-/

/-- Python `s.lower()`: lower-case every character of the string. -/
def py_lower (s : String) : String := ⟨s.data.map Char.toLower⟩

/-- Python truthiness of a `None`-able string (`if r.get('error'):`):
`None` and the empty string are falsy, every other string is truthy. -/
def py_truthy : Option String → Bool
  | none => false
  | some s => !s.isEmpty

/-- A keyword task from the input queue: `{'keyword': ..., 'category': ...}`
(built in `full_scan.main`, lines 206-230). -/
structure KeywordTask where
  keyword : String
  category : String
deriving DecidableEq, Repr

/-- The per-keyword result record built by `get_keyword_data`
(`src/full_scan.py` lines 126-134 / `src/niche_scanner.py` lines 121-134). -/
structure ScanResult where
  keyword : String
  category : String
  current_interest : ℚ
  growth_5yr : ℚ
  growth_1yr : ℚ
  growth_6mo : ℚ
  growth_3mo : ℚ
  growth_1mo : ℚ
  related_queries : String
  rising_queries : String
  recommendation_score : ℚ
  error : Option String
deriving DecidableEq, Repr

namespace FullScan

/-- `MAX_GROWTH_CAP = 10000` (`src/full_scan.py` line 56). -/
def MAX_GROWTH_CAP : ℚ := 10000

/-- `MIN_GROWTH_THRESHOLD = 300` (`src/full_scan.py` line 55). -/
def MIN_GROWTH_THRESHOLD : ℚ := 300

/-- `MAX_RETRIES = 3` (`src/full_scan.py` line 48). -/
def MAX_RETRIES : Nat := 3

/-- `calculate_growth` (`src/full_scan.py` lines 68-72). -/
def calculate_growth (current past : ℚ) : ℚ :=
  if past ≤ 0 then (if 0 < current then MAX_GROWTH_CAP else 0)
  else min ((current - past) / past * 100) MAX_GROWTH_CAP

end FullScan

namespace NicheScanner

/-- `MAX_GROWTH_CAP = 10000` (`src/niche_scanner.py` line 61). -/
def MAX_GROWTH_CAP : ℚ := 10000

/-- `MIN_GROWTH_THRESHOLD = 300` (`src/niche_scanner.py` line 60). -/
def MIN_GROWTH_THRESHOLD : ℚ := 300

/-- `MAX_RETRIES = 3` (`src/niche_scanner.py` line 47). -/
def MAX_RETRIES : Nat := 3

/-- `calculate_growth` (`src/niche_scanner.py` lines 72-80); same logic as
the full-scan variant, written with the nested `if` of that file. -/
def calculate_growth (current past : ℚ) : ℚ :=
  if past ≤ 0 then
    if 0 < current then MAX_GROWTH_CAP else 0
  else min ((current - past) / past * 100) MAX_GROWTH_CAP

end NicheScanner

/-- C1: For every pair of non-negative numbers `(current, past)`,
`calculate_growth` (in both `full_scan.py` and `niche_scanner.py`) returns
`MAX_GROWTH_CAP` when `past == 0` and `current > 0`; returns `0` when
`past == 0` and `current == 0`; and otherwise returns
`((current - past) / past) * 100` clamped from above at `MAX_GROWTH_CAP`. -/
theorem C1_calculate_growth_spec (current past : ℚ)
    (hc : 0 ≤ current) (hp : 0 ≤ past) :
    FullScan.calculate_growth current past =
      (if past = 0 then (if 0 < current then FullScan.MAX_GROWTH_CAP else 0)
       else min ((current - past) / past * 100) FullScan.MAX_GROWTH_CAP) ∧
    NicheScanner.calculate_growth current past =
      (if past = 0 then (if 0 < current then NicheScanner.MAX_GROWTH_CAP else 0)
       else min ((current - past) / past * 100) NicheScanner.MAX_GROWTH_CAP) := by
  have hiff : past ≤ 0 ↔ past = 0 := by constructor <;> intro h <;> [exact le_antisymm h hp; simp [h]]
  constructor
  · unfold FullScan.calculate_growth
    by_cases h : past = 0 <;> simp [hiff, h]
  · unfold NicheScanner.calculate_growth
    by_cases h : past = 0 <;> simp [hiff, h]

/-- C1 witness: the theorem instantiated at `(current, past) = (3, 2)`. -/
theorem C1_calculate_growth_spec_witness :
    FullScan.calculate_growth 3 2 =
      (if (2 : ℚ) = 0 then (if (0 : ℚ) < 3 then FullScan.MAX_GROWTH_CAP else 0)
       else min (((3 : ℚ) - 2) / 2 * 100) FullScan.MAX_GROWTH_CAP) ∧
    NicheScanner.calculate_growth 3 2 =
      (if (2 : ℚ) = 0 then (if (0 : ℚ) < 3 then NicheScanner.MAX_GROWTH_CAP else 0)
       else min (((3 : ℚ) - 2) / 2 * 100) NicheScanner.MAX_GROWTH_CAP) :=
  C1_calculate_growth_spec 3 2 (by norm_num) (by norm_num)

/-- C9: for non-negative inputs the growth value lies in
`[-100, MAX_GROWTH_CAP]`, and every rational in that interval is attained
by some pair of non-negative inputs (there is no lower clamp). -/
theorem C9_growth_bounds_and_range :
    (∀ current past : ℚ, 0 ≤ current → 0 ≤ past →
      -100 ≤ FullScan.calculate_growth current past ∧
      FullScan.calculate_growth current past ≤ FullScan.MAX_GROWTH_CAP) ∧
    (∀ v : ℚ, -100 ≤ v → v ≤ FullScan.MAX_GROWTH_CAP →
      ∃ current past : ℚ, 0 ≤ current ∧ 0 ≤ past ∧
        FullScan.calculate_growth current past = v) := by
  constructor
  · intro current past hc hp
    unfold FullScan.calculate_growth FullScan.MAX_GROWTH_CAP
    by_cases h : past ≤ 0
    · by_cases h' : 0 < current <;> simp [h, h'] <;> norm_num
    · push_neg at h
      simp only [not_le.mpr h, if_false]
      constructor
      · apply le_min
        · rw [div_mul_eq_mul_div, le_div_iff h]
          nlinarith
        · norm_num
      · exact min_le_right _ _
  · intro v hv1 hv2
    refine ⟨100 + v, 100, by linarith, by norm_num, ?_⟩
    unfold FullScan.calculate_growth FullScan.MAX_GROWTH_CAP at *
    have h100 : ¬ ((100 : ℚ) ≤ 0) := by norm_num
    simp only [h100, if_false]
    have : (100 + v - 100) / 100 * 100 = v := by ring
    rw [this]
    exact min_eq_left hv2

/-- C9 witness: bounds at `(7, 2)` and attainability of `-50`. -/
theorem C9_growth_bounds_and_range_witness :
    (-100 ≤ FullScan.calculate_growth 7 2 ∧
      FullScan.calculate_growth 7 2 ≤ FullScan.MAX_GROWTH_CAP) ∧
    (∃ current past : ℚ, 0 ≤ current ∧ 0 ≤ past ∧
      FullScan.calculate_growth current past = -50) :=
  ⟨C9_growth_bounds_and_range.1 7 2 (by norm_num) (by norm_num),
   C9_growth_bounds_and_range.2 (-50) (by norm_num)
     (by norm_num [FullScan.MAX_GROWTH_CAP])⟩

/-- A value of a string-typed column after the checkpoint CSV round trip:
`to_csv` writes `None` and the empty string as an empty cell, and
`read_csv` reads an empty cell back as the float `NaN`; any other string
comes back as itself. -/
inductive PyCell where
  | str (s : String)
  | nan
deriving DecidableEq, Repr

/-- What `read_csv` yields for a cell that `to_csv` wrote from the string
`s`: `NaN` when `s` was empty, else `s` itself. -/
def read_csv_str (s : String) : PyCell :=
  if s.isEmpty then PyCell.nan else PyCell.str s

/-- What `read_csv` yields for a cell that `to_csv` wrote from an optional
string: `None` is written as an empty cell, hence read back as `NaN`. -/
def read_csv_opt (e : Option String) : PyCell :=
  match e with
  | none => PyCell.nan
  | some s => read_csv_str s

/-- A ScanResult row as it comes back from `pd.read_csv` of the checkpoint
file: numeric fields round-trip exactly (numbers are `ℚ` in this model),
while string fields written from `None` or from the empty string come back
as `NaN`. -/
structure LoadedResult where
  keyword : PyCell
  category : PyCell
  current_interest : ℚ
  growth_5yr : ℚ
  growth_1yr : ℚ
  growth_6mo : ℚ
  growth_3mo : ℚ
  growth_1mo : ℚ
  related_queries : PyCell
  rising_queries : PyCell
  recommendation_score : ℚ
  error : PyCell
deriving DecidableEq, Repr

/-- The CSV round trip (`to_csv` then `read_csv`) of one ScanResult row. -/
def read_csv_row (r : ScanResult) : LoadedResult :=
  { keyword := read_csv_str r.keyword
    category := read_csv_str r.category
    current_interest := r.current_interest
    growth_5yr := r.growth_5yr
    growth_1yr := r.growth_1yr
    growth_6mo := r.growth_6mo
    growth_3mo := r.growth_3mo
    growth_1mo := r.growth_1mo
    related_queries := read_csv_str r.related_queries
    rising_queries := read_csv_str r.rising_queries
    recommendation_score := r.recommendation_score
    error := read_csv_opt r.error }

/-- pandas `.str.lower()`: lower-cases string cells, maps `NaN` to `NaN`. -/
def py_cell_lower : PyCell → PyCell
  | PyCell.str s => PyCell.str (py_lower s)
  | PyCell.nan => PyCell.nan

namespace FullScan

/-- The initial result record of `get_keyword_data`
(`src/full_scan.py` lines 126-134): all metrics at neutral defaults and
`error = None`. -/
def init_result (kw cat : String) : ScanResult :=
  { keyword := kw, category := cat, current_interest := 0,
    growth_5yr := 0, growth_1yr := 0, growth_6mo := 0,
    growth_3mo := 0, growth_1mo := 0,
    related_queries := "", rising_queries := "",
    recommendation_score := 0, error := none }

/-- `passes_threshold` (`src/full_scan.py` lines 99-108): Python
`if r.get('error'):` is truthiness, then `any` of the five horizon
comparisons `growth >= MIN_GROWTH_THRESHOLD`. -/
def passes_threshold (r : ScanResult) : Bool :=
  if py_truthy r.error then false
  else
    decide (MIN_GROWTH_THRESHOLD ≤ r.growth_5yr) ||
    decide (MIN_GROWTH_THRESHOLD ≤ r.growth_1yr) ||
    decide (MIN_GROWTH_THRESHOLD ≤ r.growth_6mo) ||
    decide (MIN_GROWTH_THRESHOLD ≤ r.growth_3mo) ||
    decide (MIN_GROWTH_THRESHOLD ≤ r.growth_1mo)

/-- `save_checkpoint` (`src/full_scan.py` lines 120-122): writes the full
result list to the checkpoint file only when the list is non-empty.  The
checkpoint file is modelled as `Option (List ScanResult)`:
`none` when the file does not exist, `some rows` for its contents. -/
def save_checkpoint (file : Option (List ScanResult))
    (results : List ScanResult) : Option (List ScanResult) :=
  if results.isEmpty then file else some results

/-- `load_checkpoint` (`src/full_scan.py` lines 111-117): reads the
checkpoint CSV back with `pd.read_csv` (decoding each row per
`read_csv_row`) and builds the processed set from the lower-cased keyword
column (`df['keyword'].str.lower()`); empty state when the checkpoint file
does not exist. -/
def load_checkpoint (file : Option (List ScanResult)) :
    List LoadedResult × List PyCell :=
  match file with
  | some rs => (rs.map read_csv_row,
      rs.map (fun r => py_cell_lower (read_csv_str r.keyword)))
  | none => ([], [])

end FullScan

namespace NicheScanner

/-- `passes_threshold` (`src/niche_scanner.py` lines 204-215): identical
logic to the full-scan variant. -/
def passes_threshold (r : ScanResult) : Bool :=
  if py_truthy r.error then false
  else
    decide (MIN_GROWTH_THRESHOLD ≤ r.growth_5yr) ||
    decide (MIN_GROWTH_THRESHOLD ≤ r.growth_1yr) ||
    decide (MIN_GROWTH_THRESHOLD ≤ r.growth_6mo) ||
    decide (MIN_GROWTH_THRESHOLD ≤ r.growth_3mo) ||
    decide (MIN_GROWTH_THRESHOLD ≤ r.growth_1mo)

/-- `save_checkpoint` (`src/niche_scanner.py` lines 218-225): returns
without writing when the result list is empty, else overwrites the file. -/
def save_checkpoint (file : Option (List ScanResult))
    (results : List ScanResult) : Option (List ScanResult) :=
  if results.isEmpty then file else some results

/-- `load_checkpoint` (`src/niche_scanner.py` lines 228-236): like the
full-scan variant (same `pd.read_csv` decoding), but the processed set
keeps the loaded keyword cells as read (no lower-casing). -/
def load_checkpoint (file : Option (List ScanResult)) :
    List LoadedResult × List PyCell :=
  match file with
  | some rs => (rs.map read_csv_row, rs.map (fun r => read_csv_str r.keyword))
  | none => ([], [])

end NicheScanner

/-- C5 counterexample: a `ScanResult` whose `error` is the non-null empty
string and whose 1-month growth is 500 passes the threshold, because the
code tests Python truthiness of the error, not nullness. -/
theorem C5_counterexample :
    ({ FullScan.init_result "k" "c" with
        error := some "", growth_1mo := 500 } : ScanResult).error ≠ none ∧
    FullScan.passes_threshold
      { FullScan.init_result "k" "c" with
        error := some "", growth_1mo := 500 } = true := by
  constructor
  · simp [FullScan.init_result]
  · decide

/-- C5 (amended): the predicates of the two files agree; a result whose
error is non-null and non-empty never passes; when the error is null (or the
empty string, which Python treats as falsy) the result passes iff at least
one of the five horizon growths meets the minimum-growth threshold. -/
theorem C5_threshold_or_semantics (r : ScanResult) :
    (NicheScanner.passes_threshold r = FullScan.passes_threshold r) ∧
    (∀ s, r.error = some s → s ≠ "" → FullScan.passes_threshold r = false) ∧
    ((r.error = none ∨ r.error = some "") →
      (FullScan.passes_threshold r = true ↔
        (FullScan.MIN_GROWTH_THRESHOLD ≤ r.growth_5yr ∨
         FullScan.MIN_GROWTH_THRESHOLD ≤ r.growth_1yr ∨
         FullScan.MIN_GROWTH_THRESHOLD ≤ r.growth_6mo ∨
         FullScan.MIN_GROWTH_THRESHOLD ≤ r.growth_3mo ∨
         FullScan.MIN_GROWTH_THRESHOLD ≤ r.growth_1mo))) := by
  refine ⟨?_, ?_, ?_⟩
  · simp [NicheScanner.passes_threshold, FullScan.passes_threshold,
      NicheScanner.MIN_GROWTH_THRESHOLD, FullScan.MIN_GROWTH_THRESHOLD]
  · intro s hs hne
    have : s.isEmpty = false := by
      cases hh : s.isEmpty
      · rfl
      · exact absurd ((String.isEmpty_iff s).mp hh) hne
    simp [FullScan.passes_threshold, py_truthy, hs, this]
  · intro herr
    have : py_truthy r.error = false := by
      rcases herr with h | h <;> simp [py_truthy, h, String.isEmpty]
    simp [FullScan.passes_threshold, this, Bool.or_eq_true, decide_eq_true_eq,
      or_assoc]

/-- C5 witness: a result with error "boom" fails; an errorless result with
5-year growth 400 passes. -/
theorem C5_threshold_or_semantics_witness :
    FullScan.passes_threshold
      { FullScan.init_result "k" "c" with error := some "boom" } = false ∧
    FullScan.passes_threshold
      { FullScan.init_result "k" "c" with growth_5yr := 400 } = true :=
  ⟨(C5_threshold_or_semantics _).2.1 "boom" rfl (by decide),
   ((C5_threshold_or_semantics _).2.2 (Or.inl rfl)).mpr
     (Or.inl (by norm_num [FullScan.MIN_GROWTH_THRESHOLD, FullScan.init_result]))⟩

/-- C10: calling `save_checkpoint` (in either file) with an empty result
collection is a no-op: the checkpoint file, whether absent or holding prior
rows, is left unchanged. -/
theorem C10_save_empty_is_noop (file : Option (List ScanResult)) :
    FullScan.save_checkpoint file [] = file ∧
    NicheScanner.save_checkpoint file [] = file :=
  ⟨rfl, rfl⟩

/-- C4 counterexample: the CSV round trip is not the identity on content.
A successful row (`error = None`) and the same row with an empty-string
error are DIFFERENT saved collections that load back as the SAME collection
(both error cells decode to `NaN`), so at least one of the two is not
reconstructed identical to what was saved; and saving the empty collection
over a checkpoint file holding one row leaves the prior row on disk, so the
subsequent load reconstructs that row, not the (empty) saved collection. -/
theorem C4_counterexample :
    ([{ FullScan.init_result "kw" "c" with error := some "" }]
      ≠ [FullScan.init_result "kw" "c"]) ∧
    FullScan.load_checkpoint (FullScan.save_checkpoint none
        [{ FullScan.init_result "kw" "c" with error := some "" }])
      = FullScan.load_checkpoint (FullScan.save_checkpoint none
        [FullScan.init_result "kw" "c"]) ∧
    (FullScan.load_checkpoint
        (FullScan.save_checkpoint (some [FullScan.init_result "kw" "c"]) [])).1
      = [read_csv_row (FullScan.init_result "kw" "c")] ∧
    ([read_csv_row (FullScan.init_result "kw" "c")] : List LoadedResult)
      ≠ [] :=
  ⟨by decide, by decide, rfl, by decide⟩

/-- C4 (amended): for every NON-empty collection, `save` is idempotent and
overwrites the checkpoint file wholesale, and a subsequent `load`
reconstructs the collection only up to the CSV decoding: one loaded row per
saved row, in order, with every numeric field preserved and every non-empty
string field preserved (in particular keyword identity), while fields
written from `None` or from the empty string are read back as `NaN`; an
empty collection leaves the file unchanged instead of overwriting it. -/
theorem C4_save_load_roundtrip (file : Option (List ScanResult))
    (results : List ScanResult) (h : results ≠ []) :
    FullScan.save_checkpoint (FullScan.save_checkpoint file results) results
      = FullScan.save_checkpoint file results ∧
    FullScan.save_checkpoint file results = some results ∧
    (FullScan.load_checkpoint (FullScan.save_checkpoint file results)).1
      = results.map read_csv_row ∧
    NicheScanner.save_checkpoint
        (NicheScanner.save_checkpoint file results) results
      = NicheScanner.save_checkpoint file results ∧
    NicheScanner.save_checkpoint file results = some results ∧
    (NicheScanner.load_checkpoint
        (NicheScanner.save_checkpoint file results)).1
      = results.map read_csv_row ∧
    (∀ r : ScanResult,
      (read_csv_row r).current_interest = r.current_interest ∧
      (read_csv_row r).growth_5yr = r.growth_5yr ∧
      (read_csv_row r).growth_1yr = r.growth_1yr ∧
      (read_csv_row r).growth_6mo = r.growth_6mo ∧
      (read_csv_row r).growth_3mo = r.growth_3mo ∧
      (read_csv_row r).growth_1mo = r.growth_1mo ∧
      (read_csv_row r).recommendation_score = r.recommendation_score ∧
      (r.keyword ≠ "" → (read_csv_row r).keyword = PyCell.str r.keyword) ∧
      ((r.error = none ∨ r.error = some "") →
        (read_csv_row r).error = PyCell.nan)) := by
  have h' : results.isEmpty = false := by
    cases results with
    | nil => exact absurd rfl h
    | cons a l => rfl
  refine ⟨?_, ?_, ?_, ?_, ?_, ?_, ?_⟩
  · simp [FullScan.save_checkpoint, h']
  · simp [FullScan.save_checkpoint, h']
  · simp [FullScan.save_checkpoint, FullScan.load_checkpoint, h']
  · simp [NicheScanner.save_checkpoint, h']
  · simp [NicheScanner.save_checkpoint, h']
  · simp [NicheScanner.save_checkpoint, NicheScanner.load_checkpoint, h']
  · intro r
    refine ⟨rfl, rfl, rfl, rfl, rfl, rfl, rfl, ?_, ?_⟩
    · intro hk
      have hke : r.keyword.isEmpty = false := by
        cases hh : r.keyword.isEmpty
        · rfl
        · exact absurd ((String.isEmpty_iff r.keyword).mp hh) hk
      simp [read_csv_row, read_csv_str, hke]
    · rintro (he | he) <;>
        rw [show (read_csv_row r).error = read_csv_opt r.error from rfl, he] <;>
        rfl

/-- C4 witness: the round-trip pieces at a concrete one-row collection with
no pre-existing file. -/
theorem C4_save_load_roundtrip_witness :
    FullScan.save_checkpoint
        (FullScan.save_checkpoint none [FullScan.init_result "a" "b"])
        [FullScan.init_result "a" "b"]
      = FullScan.save_checkpoint none [FullScan.init_result "a" "b"] ∧
    FullScan.save_checkpoint none [FullScan.init_result "a" "b"]
      = some [FullScan.init_result "a" "b"] ∧
    (FullScan.load_checkpoint
        (FullScan.save_checkpoint none [FullScan.init_result "a" "b"])).1
      = [FullScan.init_result "a" "b"].map read_csv_row ∧
    (NicheScanner.load_checkpoint
        (NicheScanner.save_checkpoint none [FullScan.init_result "a" "b"])).1
      = [FullScan.init_result "a" "b"].map read_csv_row :=
  ⟨(C4_save_load_roundtrip none [FullScan.init_result "a" "b"] (by decide)).1,
   (C4_save_load_roundtrip none [FullScan.init_result "a" "b"] (by decide)).2.1,
   (C4_save_load_roundtrip none [FullScan.init_result "a" "b"] (by decide)).2.2.1,
   (C4_save_load_roundtrip none [FullScan.init_result "a" "b"] (by decide)).2.2.2.2.2.1⟩

/-- Python `round(x, 2)` on an exact value: round `x * 100` to the nearest
integer, ties to the even integer (banker's rounding), then divide by 100. -/
def py_round_half_even (x : ℚ) : ℤ :=
  let f : ℤ := Int.floor x
  let frac : ℚ := x - f
  if frac < 1 / 2 then f
  else if 1 / 2 < frac then f + 1
  else if f % 2 = 0 then f else f + 1

/-- `round(score, 2)` as used by both scoring functions. -/
def py_round2 (x : ℚ) : ℚ := (py_round_half_even (x * 100) : ℚ) / 100

/-- Python dict read `g.get(key, 0)` over an association list. -/
def dict_get (g : List (String × ℚ)) (k : String) : ℚ := (g.lookup k).getD 0

namespace FullScan

/-- `WEIGHTS = {'1mo': 0.30, '3mo': 0.25, '6mo': 0.20, '1yr': 0.15,
'5yr': 0.10}` (`src/full_scan.py` line 52), as an association list. -/
def WEIGHTS : List (String × ℚ) :=
  [("1mo", 30 / 100), ("3mo", 25 / 100), ("6mo", 20 / 100),
   ("1yr", 15 / 100), ("5yr", 10 / 100)]

/-- `calculate_score` (`src/full_scan.py` lines 89-96): weighted sum of the
five horizon growths (`g.get(key, 0)`), rounded to two decimals.  The dict
accesses `WEIGHTS['1mo']` etc. are total because the keys are present. -/
def calculate_score (g : List (String × ℚ)) : ℚ :=
  py_round2 (
    dict_get g "growth_1mo" * (WEIGHTS.lookup "1mo").getD 0 +
    dict_get g "growth_3mo" * (WEIGHTS.lookup "3mo").getD 0 +
    dict_get g "growth_6mo" * (WEIGHTS.lookup "6mo").getD 0 +
    dict_get g "growth_1yr" * (WEIGHTS.lookup "1yr").getD 0 +
    dict_get g "growth_5yr" * (WEIGHTS.lookup "5yr").getD 0)

end FullScan

namespace NicheScanner

/-- `WEIGHTS` (`src/niche_scanner.py` lines 51-57): same table. -/
def WEIGHTS : List (String × ℚ) :=
  [("1mo", 30 / 100), ("3mo", 25 / 100), ("6mo", 20 / 100),
   ("1yr", 15 / 100), ("5yr", 10 / 100)]

/-- `calculate_recommendation_score` (`src/niche_scanner.py` lines
107-116): identical formula to the full-scan variant. -/
def calculate_recommendation_score (g : List (String × ℚ)) : ℚ :=
  py_round2 (
    dict_get g "growth_1mo" * (WEIGHTS.lookup "1mo").getD 0 +
    dict_get g "growth_3mo" * (WEIGHTS.lookup "3mo").getD 0 +
    dict_get g "growth_6mo" * (WEIGHTS.lookup "6mo").getD 0 +
    dict_get g "growth_1yr" * (WEIGHTS.lookup "1yr").getD 0 +
    dict_get g "growth_5yr" * (WEIGHTS.lookup "5yr").getD 0)

end NicheScanner

/-- `lookup` skips a cons cell whose key differs from the query. -/
theorem lookup_cons_of_ne {β : Type} {k a : String} (b : β)
    (es : List (String × β)) (h : k ≠ a) :
    ((a, b) :: es).lookup k = es.lookup k := by
  have hb : (k == a) = false := beq_eq_false_iff_ne.mpr h
  simp [List.lookup_cons, hb]

/-- `lookup` into an association list with no duplicate keys is invariant
under permutation of the list (the embedding of the fact that a Python dict
is insertion-order independent as a key-value map). -/
theorem lookup_eq_of_perm {β : Type} (k : String)
    {l₁ l₂ : List (String × β)} (hp : l₁.Perm l₂)
    (hnd : (l₁.map Prod.fst).Nodup) : l₁.lookup k = l₂.lookup k := by
  induction hp with
  | nil => rfl
  | cons x h ih =>
    obtain ⟨a, b⟩ := x
    simp only [List.map_cons, List.nodup_cons] at hnd
    by_cases hk : k = a
    · subst hk; simp
    · rw [lookup_cons_of_ne b _ hk, lookup_cons_of_ne b _ hk, ih hnd.2]
  | swap x y l =>
    obtain ⟨a, b⟩ := x
    obtain ⟨c, d⟩ := y
    simp only [List.map_cons, List.nodup_cons, List.mem_cons] at hnd
    have hca : c ≠ a := fun h => hnd.1 (Or.inl h)
    by_cases h1 : k = c
    · subst h1
      rw [lookup_cons_of_ne b ((k, d) :: l) hca, List.lookup_cons_self,
        List.lookup_cons_self]
    · by_cases h2 : k = a
      · subst h2
        rw [lookup_cons_of_ne d ((k, b) :: l) h1, List.lookup_cons_self,
          List.lookup_cons_self]
      · rw [lookup_cons_of_ne d ((a, b) :: l) h1,
          lookup_cons_of_ne b l h2,
          lookup_cons_of_ne b ((c, d) :: l) h2,
          lookup_cons_of_ne d l h1]
  | trans h₁ h₂ ih₁ ih₂ =>
    have hnd₂ : _ := (h₁.map Prod.fst).nodup_iff.mp hnd
    rw [ih₁ hnd, ih₂ hnd₂]

/-- C7: the recommendation score is the weighted sum over the five horizons
(each horizon's growth defaulting to 0 when missing) with the fixed weight
table, rounded to two decimal places; the weights sum to 1 with shorter
horizons weighted strictly higher; and permuting the insertion order of the
horizons in the input profile does not change the score. -/
theorem C7_score_weighted_sum :
    ((FullScan.WEIGHTS.map Prod.snd).sum = 1 ∧
      (FullScan.WEIGHTS.lookup "5yr").getD 0 < (FullScan.WEIGHTS.lookup "1yr").getD 0 ∧
      (FullScan.WEIGHTS.lookup "1yr").getD 0 < (FullScan.WEIGHTS.lookup "6mo").getD 0 ∧
      (FullScan.WEIGHTS.lookup "6mo").getD 0 < (FullScan.WEIGHTS.lookup "3mo").getD 0 ∧
      (FullScan.WEIGHTS.lookup "3mo").getD 0 < (FullScan.WEIGHTS.lookup "1mo").getD 0) ∧
    (∀ g : List (String × ℚ),
      FullScan.calculate_score g =
        py_round2 (([("growth_1mo", "1mo"), ("growth_3mo", "3mo"),
            ("growth_6mo", "6mo"), ("growth_1yr", "1yr"),
            ("growth_5yr", "5yr")].map
          (fun p => dict_get g p.1 *
            (FullScan.WEIGHTS.lookup p.2).getD 0)).sum)) ∧
    (∀ g₁ g₂ : List (String × ℚ), g₁.Perm g₂ → (g₁.map Prod.fst).Nodup →
      FullScan.calculate_score g₁ = FullScan.calculate_score g₂) := by
  refine ⟨⟨?_, ?_, ?_, ?_, ?_⟩, ?_, ?_⟩
  · simp only [FullScan.WEIGHTS, List.map_cons, List.map_nil, List.sum_cons,
      List.sum_nil]
    norm_num
  · rw [show (FullScan.WEIGHTS.lookup "5yr").getD 0 = 10 / 100 from rfl,
      show (FullScan.WEIGHTS.lookup "1yr").getD 0 = 15 / 100 from rfl]
    norm_num
  · rw [show (FullScan.WEIGHTS.lookup "1yr").getD 0 = 15 / 100 from rfl,
      show (FullScan.WEIGHTS.lookup "6mo").getD 0 = 20 / 100 from rfl]
    norm_num
  · rw [show (FullScan.WEIGHTS.lookup "6mo").getD 0 = 20 / 100 from rfl,
      show (FullScan.WEIGHTS.lookup "3mo").getD 0 = 25 / 100 from rfl]
    norm_num
  · rw [show (FullScan.WEIGHTS.lookup "3mo").getD 0 = 25 / 100 from rfl,
      show (FullScan.WEIGHTS.lookup "1mo").getD 0 = 30 / 100 from rfl]
    norm_num
  · intro g
    simp only [FullScan.calculate_score, List.map_cons, List.map_nil,
      List.sum_cons, List.sum_nil]
    exact congrArg py_round2 (by ring)
  · intro g₁ g₂ hp hnd
    unfold FullScan.calculate_score dict_get
    rw [lookup_eq_of_perm "growth_1mo" hp hnd, lookup_eq_of_perm "growth_3mo" hp hnd,
      lookup_eq_of_perm "growth_6mo" hp hnd, lookup_eq_of_perm "growth_1yr" hp hnd,
      lookup_eq_of_perm "growth_5yr" hp hnd]

/-- C7 witness: permutation invariance at a concrete two-entry profile, and
the weighted-sum form at a concrete profile. -/
theorem C7_score_weighted_sum_witness :
    FullScan.calculate_score [("growth_1mo", 100), ("growth_5yr", 50)] =
      FullScan.calculate_score [("growth_5yr", 50), ("growth_1mo", 100)] ∧
    FullScan.calculate_score [("growth_1mo", 100)] =
      py_round2 (([("growth_1mo", "1mo"), ("growth_3mo", "3mo"),
          ("growth_6mo", "6mo"), ("growth_1yr", "1yr"),
          ("growth_5yr", "5yr")].map
        (fun p => dict_get [("growth_1mo", (100 : ℚ))] p.1 *
          (FullScan.WEIGHTS.lookup p.2).getD 0)).sum) :=
  ⟨C7_score_weighted_sum.2.2 _ _ (List.Perm.swap _ _ _) (by decide),
   C7_score_weighted_sum.2.1 [("growth_1mo", 100)]⟩

/-- "Sorted by recommendation_score descending": row `a` precedes row `b`
when `a`'s score is at least `b`'s. -/
def score_ge (a b : ScanResult) : Prop :=
  b.recommendation_score ≤ a.recommendation_score

instance : DecidableRel score_ge :=
  fun a b => inferInstanceAs (Decidable (_ ≤ _))

instance : IsTotal ScanResult score_ge :=
  ⟨fun a b => le_total b.recommendation_score a.recommendation_score⟩

instance : IsTrans ScanResult score_ge :=
  ⟨fun _ _ _ hab hbc => le_trans hbc hab⟩

namespace NicheScanner

/-- `save_final_results` (`src/niche_scanner.py` lines 305-346), modelled at
the level of the rows written to the output file: filter by
`passes_threshold`; if nothing passes, fall back to all errorless rows
(line 321); sort by `recommendation_score` descending (`sort_values`,
modelled by insertion sort) and write.  When the fallback is ALSO empty,
`pd.DataFrame([])` has no columns and `sort_values('recommendation_score')`
(line 335) raises `KeyError`, so nothing is written: that raise is
modelled by `none`. -/
def save_final_results (results : List ScanResult) :
    Option (List ScanResult) :=
  let passing := results.filter (fun r => passes_threshold r)
  let chosen :=
    if passing.isEmpty then results.filter (fun r => !py_truthy r.error)
    else passing
  if chosen.isEmpty then none
  else some (List.insertionSort score_ge chosen)

end NicheScanner

namespace FullScan

/-- The final-output step of `main` (`src/full_scan.py` lines 279-294):
ALL results are sorted by `recommendation_score` descending and written to
the output file; `passing` is computed only for the printed statistics. -/
def final_output (results : List ScanResult) : List ScanResult :=
  List.insertionSort score_ge results

end FullScan

/-- C3 counterexample: `full_scan.main` writes every result to the output
file, so a single errored result appears in the final output even though it
fails `ThresholdFilter` and its error is non-null. -/
theorem C3_counterexample :
    FullScan.final_output
        [{ FullScan.init_result "kw" "c" with error := some "boom" }] =
      [{ FullScan.init_result "kw" "c" with error := some "boom" }] ∧
    FullScan.passes_threshold
      { FullScan.init_result "kw" "c" with error := some "boom" } = false ∧
    ({ FullScan.init_result "kw" "c" with
        error := some "boom" } : ScanResult).error ≠ none := by
  refine ⟨rfl, by decide, by simp [FullScan.init_result]⟩

/-- C3 (amended): `full_scan` writes all results (errored and non-passing
included) sorted by score descending; `niche_scanner.save_final_results`
writes exactly the threshold-passing rows sorted by score descending when
at least one result passes; when none passes it falls back to all errorless
rows, sorted the same way; and when that fallback is also empty (every
result has a truthy error) `sort_values` raises on the column-less empty
DataFrame and nothing is written. -/
theorem C3_final_output_rows :
    (∀ results : List ScanResult,
      (FullScan.final_output results).Perm results ∧
      List.Sorted score_ge (FullScan.final_output results)) ∧
    (∀ results : List ScanResult,
      (∃ r ∈ results, NicheScanner.passes_threshold r = true) →
      ∃ out, NicheScanner.save_final_results results = some out ∧
        out.Perm
          (results.filter (fun r => NicheScanner.passes_threshold r)) ∧
        List.Sorted score_ge out) ∧
    (∀ results : List ScanResult,
      (∀ r ∈ results, NicheScanner.passes_threshold r = false) →
      (∃ r ∈ results, py_truthy r.error = false) →
      ∃ out, NicheScanner.save_final_results results = some out ∧
        out.Perm (results.filter (fun r => !py_truthy r.error)) ∧
        List.Sorted score_ge out) ∧
    (∀ results : List ScanResult,
      (∀ r ∈ results, py_truthy r.error = true) →
      NicheScanner.save_final_results results = none) := by
  refine ⟨?_, ?_, ?_, ?_⟩
  · intro results
    exact ⟨List.perm_insertionSort score_ge results,
      List.sorted_insertionSort score_ge results⟩
  · rintro results ⟨r, hr, hpass⟩
    have hmem : r ∈ results.filter (fun r => NicheScanner.passes_threshold r) :=
      List.mem_filter.mpr ⟨hr, hpass⟩
    have hne : (results.filter
        (fun r => NicheScanner.passes_threshold r)).isEmpty = false :=
      List.isEmpty_eq_false.mpr (List.ne_nil_of_mem hmem)
    refine ⟨List.insertionSort score_ge
        (results.filter (fun r => NicheScanner.passes_threshold r)), ?_,
      List.perm_insertionSort score_ge _,
      List.sorted_insertionSort score_ge _⟩
    simp only [NicheScanner.save_final_results, hne, Bool.false_eq_true,
      if_false]
  · intro results hall hex
    have hnil : results.filter (fun r => NicheScanner.passes_threshold r) = [] :=
      List.filter_eq_nil_iff.mpr (fun r hr => by simp [hall r hr])
    obtain ⟨r, hr, hre⟩ := hex
    have hmem : r ∈ results.filter (fun r => !py_truthy r.error) :=
      List.mem_filter.mpr ⟨hr, by simp [hre]⟩
    have hfbe : (results.filter (fun r => !py_truthy r.error)).isEmpty
        = false :=
      List.isEmpty_eq_false.mpr (List.ne_nil_of_mem hmem)
    refine ⟨List.insertionSort score_ge
        (results.filter (fun r => !py_truthy r.error)), ?_,
      List.perm_insertionSort score_ge _,
      List.sorted_insertionSort score_ge _⟩
    simp only [NicheScanner.save_final_results, hnil, List.isEmpty_nil,
      if_true, hfbe, Bool.false_eq_true, if_false]
  · intro results hall
    have hnil : results.filter (fun r => NicheScanner.passes_threshold r) = [] :=
      List.filter_eq_nil_iff.mpr (fun r hr => by
        simp [NicheScanner.passes_threshold, hall r hr])
    have hfb : results.filter (fun r => !py_truthy r.error) = [] :=
      List.filter_eq_nil_iff.mpr (fun r hr => by simp [hall r hr])
    simp only [NicheScanner.save_final_results, hnil, hfb, List.isEmpty_nil,
      if_true]

/-- C3 witness: with one passing result, the niche output is written and is
exactly the passing subset, sorted; with one errored result (and nothing
else), the niche save raises and writes nothing. -/
theorem C3_final_output_rows_witness :
    (∃ out, NicheScanner.save_final_results
        [{ FullScan.init_result "k" "c" with growth_5yr := 400 }]
        = some out ∧
      out.Perm
        ([{ FullScan.init_result "k" "c" with growth_5yr := 400 }].filter
          (fun r => NicheScanner.passes_threshold r)) ∧
      List.Sorted score_ge out) ∧
    NicheScanner.save_final_results
        [{ FullScan.init_result "k" "c" with error := some "boom" }]
      = none :=
  ⟨C3_final_output_rows.2.1
      [{ FullScan.init_result "k" "c" with growth_5yr := 400 }]
      ⟨{ FullScan.init_result "k" "c" with growth_5yr := 400 },
        List.mem_singleton.mpr rfl, by decide⟩,
   C3_final_output_rows.2.2.2
      [{ FullScan.init_result "k" "c" with error := some "boom" }]
      (fun r hr => by
        rw [List.mem_singleton] at hr
        rw [hr]
        decide)⟩

namespace FullScan

/-- The resume filter of `main` (`src/full_scan.py` line 236):
`remaining = [k for k in all_keywords if k['keyword'].lower() not in processed]`. -/
def remaining_tasks (queue : List KeywordTask) (processed : List String) :
    List KeywordTask :=
  queue.filter (fun kw => !(decide (py_lower kw.keyword ∈ processed)))

/-- The result collection of a resumed run (`src/full_scan.py` lines
234-272): the checkpointed results, followed by one freshly fetched result
per remaining task, appended in order. -/
def resumed_results (queue : List KeywordTask) (checkpoint : List ScanResult)
    (fetch : KeywordTask → ScanResult) : List ScanResult :=
  checkpoint ++
    (remaining_tasks queue
      (checkpoint.map (fun r => py_lower r.keyword))).map fetch

end FullScan

/-- Mapping after filtering on the image equals filtering after mapping. -/
theorem map_filter_comp {α β : Type} (f : α → β) (p : β → Bool)
    (l : List α) :
    (l.filter (fun a => p (f a))).map f = (l.map f).filter p := by
  induction l with
  | nil => rfl
  | cons a t ih =>
    by_cases h : p (f a) <;> simp [List.filter_cons, h, ih]

/-- C2: with a queue of keywords unique up to lower-casing and a checkpoint
holding one result for each of a subset of those keywords, the resumed run
fetches exactly `N - K` tasks, and the merged collection carries exactly one
result per unique queue keyword (its lower-cased keyword multiset is a
permutation of the queue's, hence no duplicates and no gaps). -/
theorem C2_resume_invariant (queue : List KeywordTask)
    (checkpoint : List ScanResult) (fetch : KeywordTask → ScanResult)
    (hq : (queue.map (fun k => py_lower k.keyword)).Nodup)
    (hc : (checkpoint.map (fun r => py_lower r.keyword)).Nodup)
    (hsub : ∀ r ∈ checkpoint,
      py_lower r.keyword ∈ queue.map (fun k => py_lower k.keyword))
    (hf : ∀ k, (fetch k).keyword = k.keyword) :
    (FullScan.remaining_tasks queue
        (checkpoint.map (fun r => py_lower r.keyword))).length
      = queue.length - checkpoint.length ∧
    ((FullScan.resumed_results queue checkpoint fetch).map
        (fun r => py_lower r.keyword)).Perm
      (queue.map (fun k => py_lower k.keyword)) := by
  set keys := queue.map (fun k => py_lower k.keyword) with hkeys
  set P := checkpoint.map (fun r => py_lower r.keyword) with hP
  have hmap : (FullScan.resumed_results queue checkpoint fetch).map
      (fun r => py_lower r.keyword)
      = P ++ keys.filter (fun s => !(decide (s ∈ P))) := by
    unfold FullScan.resumed_results
    rw [List.map_append]
    congr 1
    rw [List.map_map]
    have hcongr : ((fun r => py_lower r.keyword) ∘ fetch)
        = fun k : KeywordTask => py_lower k.keyword := by
      funext k
      simp [Function.comp, hf k]
    rw [hcongr]
    have := map_filter_comp (fun k : KeywordTask => py_lower k.keyword)
      (fun s => !(decide (s ∈ P))) queue
    exact this
  have hPsub : ∀ s ∈ P, s ∈ keys := by
    intro s hs
    rw [hP] at hs
    obtain ⟨r, hr, rfl⟩ := List.mem_map.mp hs
    exact hsub r hr
  have hPperm : P.Perm (keys.filter (fun s => decide (s ∈ P))) := by
    refine (List.perm_ext_iff_of_nodup hc (hq.filter _)).mpr ?_
    intro s
    constructor
    · intro hs
      exact List.mem_filter.mpr ⟨hPsub s hs, by simpa using hs⟩
    · intro hs
      simpa using (List.mem_filter.mp hs).2
  have hperm : (P ++ keys.filter (fun s => !(decide (s ∈ P)))).Perm keys :=
    (hPperm.append_right _).trans
      (List.filter_append_perm (fun s => decide (s ∈ P)) keys)
  constructor
  · have hlen : P.length + (keys.filter (fun s => !(decide (s ∈ P)))).length
        = keys.length := by
      have := hperm.length_eq
      simpa [List.length_append] using this
    have hrem : (FullScan.remaining_tasks queue P).length
        = (keys.filter (fun s => !(decide (s ∈ P)))).length := by
      unfold FullScan.remaining_tasks
      rw [← map_filter_comp (fun k : KeywordTask => py_lower k.keyword)
        (fun s => !(decide (s ∈ P))) queue, List.length_map]
    have hq' : keys.length = queue.length := by rw [hkeys, List.length_map]
    have hc' : P.length = checkpoint.length := by rw [hP, List.length_map]
    omega
  · rw [hmap]
    exact hperm

/-- C2 witness: a two-keyword queue with one checkpointed keyword; the
resumed run fetches exactly one task and the merged collection covers both
keywords exactly once. -/
theorem C2_resume_invariant_witness :
    (FullScan.remaining_tasks
        [⟨"A", "c1"⟩, ⟨"b", "c2"⟩]
        ([FullScan.init_result "a" "c1"].map (fun r => py_lower r.keyword))).length
      = 2 - 1 ∧
    ((FullScan.resumed_results [⟨"A", "c1"⟩, ⟨"b", "c2"⟩]
        [FullScan.init_result "a" "c1"]
        (fun k => FullScan.init_result k.keyword k.category)).map
        (fun r => py_lower r.keyword)).Perm
      (([⟨"A", "c1"⟩, ⟨"b", "c2"⟩] : List KeywordTask).map
        (fun k => py_lower k.keyword)) :=
  C2_resume_invariant [⟨"A", "c1"⟩, ⟨"b", "c2"⟩]
    [FullScan.init_result "a" "c1"]
    (fun k => FullScan.init_result k.keyword k.category)
    (by decide) (by decide) (by decide) (fun k => rfl)

/-- Python substring test at the character-list level: the needle occurs
contiguously somewhere in the haystack. -/
def py_substring (needle : List Char) : List Char → Bool
  | [] => needle.isEmpty
  | c :: rest => needle.isPrefixOf (c :: rest) || py_substring needle rest

/-- Python `needle in haystack` on strings. -/
def py_in (needle haystack : String) : Bool :=
  py_substring needle.data haystack.data

/-- The rate-limit classification used by both retry loops
(`'429' in str(e) or 'rate' in str(e).lower()`,
`src/full_scan.py` line 184 / `src/niche_scanner.py` line 193). -/
def is_rate_limited (msg : String) : Bool :=
  py_in "429" msg || py_in "rate" (py_lower msg)

/-- Python `str(e)[:50]` (`src/full_scan.py` line 188). -/
def py_take50 (msg : String) : String := ⟨msg.data.take 50⟩

/-- One attempt of the remote fetch, as observed by the retry loop: either
a time series (with the best-effort related/rising strings already merged,
failures there being swallowed), or an exception message. -/
inductive FetchOutcome where
  | ok (series : List ℚ) (rel ris : String)
  | err (msg : String)
deriving DecidableEq

/-- The values extracted at the fixed look-back offsets
(`get_time_periods`, `src/full_scan.py` lines 75-86 /
`src/niche_scanner.py` lines 83-104). -/
structure Periods where
  current : ℚ
  ago_1mo : ℚ
  ago_3mo : ℚ
  ago_6mo : ℚ
  ago_1yr : ℚ
  ago_5yr : ℚ
deriving DecidableEq

/-- `get_time_periods`: `None` on an empty series; otherwise the last
value, the value `k` samples back when the series is long enough (else the
first value), and the first value for the 5-year horizon. -/
def get_time_periods (series : List ℚ) : Option Periods :=
  if series.isEmpty then none
  else
    some
      { current := series.getD (series.length - 1) 0
        ago_1mo := if series.length > 5 then series.getD (series.length - 5) 0
                   else series.getD 0 0
        ago_3mo := if series.length > 13 then series.getD (series.length - 13) 0
                   else series.getD 0 0
        ago_6mo := if series.length > 26 then series.getD (series.length - 26) 0
                   else series.getD 0 0
        ago_1yr := if series.length > 52 then series.getD (series.length - 52) 0
                   else series.getD 0 0
        ago_5yr := series.getD 0 0 }

namespace FullScan

/-- The successful branch of `get_keyword_data`
(`src/full_scan.py` lines 145-181): growth metrics from the period values,
related/rising strings from the best-effort secondary call, then the
recommendation score from the five growth fields; `error` stays `None`. -/
def success_result (kw cat : String) (series : List ℚ)
    (rel ris : String) : ScanResult :=
  let base := init_result kw cat
  let r1 :=
    match get_time_periods series with
    | some p =>
      { base with
        current_interest := p.current
        growth_5yr := calculate_growth p.current p.ago_5yr
        growth_1yr := calculate_growth p.current p.ago_1yr
        growth_6mo := calculate_growth p.current p.ago_6mo
        growth_3mo := calculate_growth p.current p.ago_3mo
        growth_1mo := calculate_growth p.current p.ago_1mo }
    | none => base
  { r1 with
    related_queries := rel
    rising_queries := ris
    recommendation_score := calculate_score
      [("growth_1mo", r1.growth_1mo), ("growth_3mo", r1.growth_3mo),
       ("growth_6mo", r1.growth_6mo), ("growth_1yr", r1.growth_1yr),
       ("growth_5yr", r1.growth_5yr)] }

/-- The retry loop of `get_keyword_data` (`src/full_scan.py` lines
136-192), with `fuel` remaining attempts and `i` the index of the next
attempt in the oracle of attempt outcomes: an empty series is terminal
(`'No data'`), a rate-limited failure consumes one attempt, any other
failure is terminal with the message truncated to 50 characters, and
exhausted fuel yields `'Max retries'`. -/
def get_keyword_data_go (oracle : Nat → FetchOutcome) (kw cat : String) :
    Nat → Nat → ScanResult
  | 0, _ => { init_result kw cat with error := some "Max retries" }
  | fuel + 1, i =>
    match oracle i with
    | .ok series rel ris =>
      if series.isEmpty then
        { init_result kw cat with error := some "No data" }
      else success_result kw cat series rel ris
    | .err msg =>
      if is_rate_limited msg then get_keyword_data_go oracle kw cat fuel (i + 1)
      else { init_result kw cat with error := some (py_take50 msg) }

/-- `get_keyword_data` (`src/full_scan.py` lines 125-192). -/
def get_keyword_data (oracle : Nat → FetchOutcome) (kw cat : String) :
    ScanResult :=
  get_keyword_data_go oracle kw cat MAX_RETRIES 0

/-- The successful branch never sets `error`. -/
theorem success_result_error_eq_none (kw cat : String) (series : List ℚ)
    (rel ris : String) : (success_result kw cat series rel ris).error = none := by
  unfold success_result
  cases h : get_time_periods series <;> simp [h, init_result]

/-- Every value produced by the retry loop is either a successful result or
the initial record with only the error field set. -/
theorem go_cases (oracle : Nat → FetchOutcome) (kw cat : String) :
    ∀ fuel i,
      (∃ series rel ris, get_keyword_data_go oracle kw cat fuel i
        = success_result kw cat series rel ris) ∨
      (∃ e, get_keyword_data_go oracle kw cat fuel i
        = { init_result kw cat with error := some e }) := by
  intro fuel
  induction fuel with
  | zero => intro i; exact Or.inr ⟨"Max retries", rfl⟩
  | succ n ih =>
    intro i
    cases ho : oracle i with
    | ok series rel ris =>
      by_cases hs : series.isEmpty
      · exact Or.inr ⟨"No data", by simp [get_keyword_data_go, ho, hs]⟩
      · exact Or.inl ⟨series, rel, ris, by simp [get_keyword_data_go, ho, hs]⟩
    | err msg =>
      by_cases hr : is_rate_limited msg
      · have := ih (i + 1)
        simpa [get_keyword_data_go, ho, hr] using this
      · exact Or.inr ⟨py_take50 msg, by simp [get_keyword_data_go, ho, hr]⟩

/-- Skipping a prefix of `d` rate-limited failures consumes `d` units of
fuel and advances the attempt index by `d`. -/
theorem go_skip (oracle : Nat → FetchOutcome) (kw cat : String) :
    ∀ (d fuel i : Nat), d ≤ fuel →
      (∀ j, j < d → ∃ m, oracle (i + j) = FetchOutcome.err m ∧
        is_rate_limited m = true) →
      get_keyword_data_go oracle kw cat fuel i
        = get_keyword_data_go oracle kw cat (fuel - d) (i + d) := by
  intro d
  induction d with
  | zero => intro fuel i _ _; simp
  | succ n ih =>
    intro fuel i hle hj
    obtain ⟨m, hm, hrl⟩ := hj 0 (Nat.succ_pos n)
    rw [Nat.add_zero] at hm
    cases fuel with
    | zero => omega
    | succ f =>
      have step : get_keyword_data_go oracle kw cat (f + 1) i
          = get_keyword_data_go oracle kw cat f (i + 1) := by
        simp [get_keyword_data_go, hm, hrl]
      rw [step]
      have hrec := ih f (i + 1) (by omega) (fun j hji => by
        have h := hj (j + 1) (by omega)
        have e : i + (j + 1) = i + 1 + j := by omega
        rw [e] at h
        exact h)
      rw [hrec]
      have e1 : f - n = f + 1 - (n + 1) := by omega
      have e2 : i + 1 + n = i + (n + 1) := by omega
      rw [e1, e2]

end FullScan

/-- C8: whenever `get_keyword_data` reports an error, every metric field of
the result is at its neutral default (zero growths and score, empty related
strings); conversely a successful fetch (a non-empty series at some attempt
reached after only rate-limited failures) yields `error = None`. -/
theorem C8_error_neutral_defaults (oracle : Nat → FetchOutcome)
    (kw cat : String) :
    (∀ e, (FullScan.get_keyword_data oracle kw cat).error = some e →
      FullScan.get_keyword_data oracle kw cat
        = { FullScan.init_result kw cat with error := some e }) ∧
    (∀ i series rel ris, i < FullScan.MAX_RETRIES →
      (∀ j, j < i → ∃ m, oracle j = FetchOutcome.err m ∧
        is_rate_limited m = true) →
      oracle i = FetchOutcome.ok series rel ris → series ≠ [] →
      (FullScan.get_keyword_data oracle kw cat).error = none) := by
  constructor
  · intro e he
    rcases FullScan.go_cases oracle kw cat FullScan.MAX_RETRIES 0 with
      ⟨series, rel, ris, hs⟩ | ⟨e', hs⟩
    · exfalso
      have : (FullScan.get_keyword_data oracle kw cat).error = none := by
        rw [FullScan.get_keyword_data, hs]
        exact FullScan.success_result_error_eq_none kw cat series rel ris
      rw [this] at he
      exact Option.noConfusion he
    · rw [FullScan.get_keyword_data] at he ⊢
      rw [hs] at he
      have he' : e' = e := by simpa using he
      rw [hs, he']
  · intro i series rel ris hi hpre hok hne
    have hskip := FullScan.go_skip oracle kw cat i FullScan.MAX_RETRIES 0
      (by omega) (fun j hj => by simpa using hpre j hj)
    rw [FullScan.get_keyword_data, hskip]
    have : ∃ k, FullScan.MAX_RETRIES - i = k + 1 := ⟨FullScan.MAX_RETRIES - i - 1, by
      unfold FullScan.MAX_RETRIES at *
      omega⟩
    obtain ⟨k, hk⟩ := this
    rw [hk]
    have hse : series.isEmpty = false := by
      cases series with
      | nil => exact absurd rfl hne
      | cons a l => rfl
    simp only [FullScan.get_keyword_data_go, Nat.zero_add, hok, hse,
      Bool.false_eq_true, if_false]
    exact FullScan.success_result_error_eq_none kw cat series rel ris

/-- C8 witness: a terminal failure yields the neutral record with only the
error set; a clean successful fetch yields `error = none`. -/
theorem C8_error_neutral_defaults_witness :
    FullScan.get_keyword_data (fun _ => FetchOutcome.err "boom") "kw" "cat"
      = { FullScan.init_result "kw" "cat" with
          error := some (py_take50 "boom") } ∧
    (FullScan.get_keyword_data
      (fun _ => FetchOutcome.ok [1, 2] "" "") "kw" "cat").error = none :=
  ⟨(C8_error_neutral_defaults (fun _ => FetchOutcome.err "boom") "kw" "cat").1
      (py_take50 "boom") rfl,
   (C8_error_neutral_defaults
      (fun _ => FetchOutcome.ok [1, 2] "" "") "kw" "cat").2
      0 [1, 2] "" "" (by decide) (fun j hj => absurd hj (by omega)) rfl
      (by decide)⟩

namespace NicheScanner

/-- The initial result record of `get_keyword_data`
(`src/niche_scanner.py` lines 121-134). -/
def init_result (kw cat : String) : ScanResult :=
  { keyword := kw, category := cat, current_interest := 0,
    growth_5yr := 0, growth_1yr := 0, growth_6mo := 0,
    growth_3mo := 0, growth_1mo := 0,
    related_queries := "", rising_queries := "",
    recommendation_score := 0, error := none }

/-- The successful branch of `get_keyword_data`
(`src/niche_scanner.py` lines 139-189). -/
def success_result (kw cat : String) (series : List ℚ)
    (rel ris : String) : ScanResult :=
  let base := init_result kw cat
  let r1 :=
    match get_time_periods series with
    | some p =>
      { base with
        current_interest := p.current
        growth_5yr := calculate_growth p.current p.ago_5yr
        growth_1yr := calculate_growth p.current p.ago_1yr
        growth_6mo := calculate_growth p.current p.ago_6mo
        growth_3mo := calculate_growth p.current p.ago_3mo
        growth_1mo := calculate_growth p.current p.ago_1mo }
    | none => base
  { r1 with
    related_queries := rel
    rising_queries := ris
    recommendation_score := calculate_recommendation_score
      [("growth_1mo", r1.growth_1mo), ("growth_3mo", r1.growth_3mo),
       ("growth_6mo", r1.growth_6mo), ("growth_1yr", r1.growth_1yr),
       ("growth_5yr", r1.growth_5yr)] }

/-- The retry loop of `get_keyword_data` (`src/niche_scanner.py` lines
136-201): identical control flow to the full-scan variant, except that a
non-rate-limited failure stores the FULL message (line 197, no truncation)
and retry exhaustion stores `'Max retries exceeded'` (line 200). -/
def get_keyword_data_go (oracle : Nat → FetchOutcome) (kw cat : String) :
    Nat → Nat → ScanResult
  | 0, _ => { init_result kw cat with error := some "Max retries exceeded" }
  | fuel + 1, i =>
    match oracle i with
    | .ok series rel ris =>
      if series.isEmpty then
        { init_result kw cat with error := some "No data" }
      else success_result kw cat series rel ris
    | .err msg =>
      if is_rate_limited msg then get_keyword_data_go oracle kw cat fuel (i + 1)
      else { init_result kw cat with error := some msg }

/-- `get_keyword_data` (`src/niche_scanner.py` lines 119-201). -/
def get_keyword_data (oracle : Nat → FetchOutcome) (kw cat : String) :
    ScanResult :=
  get_keyword_data_go oracle kw cat MAX_RETRIES 0

/-- Skipping a prefix of `d` rate-limited failures consumes `d` units of
fuel and advances the attempt index by `d` (niche-scanner loop). -/
theorem go_skip_niche (oracle : Nat → FetchOutcome) (kw cat : String) :
    ∀ (d fuel i : Nat), d ≤ fuel →
      (∀ j, j < d → ∃ m, oracle (i + j) = FetchOutcome.err m ∧
        is_rate_limited m = true) →
      get_keyword_data_go oracle kw cat fuel i
        = get_keyword_data_go oracle kw cat (fuel - d) (i + d) := by
  intro d
  induction d with
  | zero => intro fuel i _ _; simp
  | succ n ih =>
    intro fuel i hle hj
    obtain ⟨m, hm, hrl⟩ := hj 0 (Nat.succ_pos n)
    rw [Nat.add_zero] at hm
    cases fuel with
    | zero => omega
    | succ f =>
      have step : get_keyword_data_go oracle kw cat (f + 1) i
          = get_keyword_data_go oracle kw cat f (i + 1) := by
        simp [get_keyword_data_go, hm, hrl]
      rw [step]
      have hrec := ih f (i + 1) (by omega) (fun j hji => by
        have h := hj (j + 1) (by omega)
        have e : i + (j + 1) = i + 1 + j := by omega
        rw [e] at h
        exact h)
      rw [hrec]
      have e1 : f - n = f + 1 - (n + 1) := by omega
      have e2 : i + 1 + n = i + (n + 1) := by omega
      rw [e1, e2]

end NicheScanner

/-- C6 counterexample: through the niche-scanner loop, a non-rate-limited
failure stores the FULL exception message, not a truncated one — here a
66-character message is stored intact, contradicting the claim that the
stored error message is truncated. -/
theorem C6_counterexample :
    (NicheScanner.get_keyword_data
        (fun _ => FetchOutcome.err
          "this exception message is definitely longer than fifty characters")
        "kw" "cat").error
      = some "this exception message is definitely longer than fifty characters" ∧
    ("this exception message is definitely longer than fifty characters" :
      String).length > 50 :=
  ⟨rfl, by decide⟩

/-- C6 (amended): a rate-limited failure (error text containing '429' or,
case-insensitively, 'rate') consumes one of the `MAX_RETRIES` attempts;
exhaustion yields the terminal max-retries error of each file; any other
failure is terminal immediately, with the message truncated to 50
characters in `full_scan` but stored in full in `niche_scanner`; an empty
series is terminal immediately with error `'No data'` in both. -/
theorem C6_retry_classification (oracle : Nat → FetchOutcome)
    (kw cat : String) :
    ((∀ j, j < FullScan.MAX_RETRIES → ∃ m, oracle j = FetchOutcome.err m ∧
        is_rate_limited m = true) →
      FullScan.get_keyword_data oracle kw cat
        = { FullScan.init_result kw cat with error := some "Max retries" } ∧
      NicheScanner.get_keyword_data oracle kw cat
        = { NicheScanner.init_result kw cat with
            error := some "Max retries exceeded" }) ∧
    (∀ i msg, i < FullScan.MAX_RETRIES →
      (∀ j, j < i → ∃ m, oracle j = FetchOutcome.err m ∧
        is_rate_limited m = true) →
      oracle i = FetchOutcome.err msg → is_rate_limited msg = false →
      FullScan.get_keyword_data oracle kw cat
        = { FullScan.init_result kw cat with
            error := some (py_take50 msg) } ∧
      NicheScanner.get_keyword_data oracle kw cat
        = { NicheScanner.init_result kw cat with error := some msg }) ∧
    (∀ i rel ris, i < FullScan.MAX_RETRIES →
      (∀ j, j < i → ∃ m, oracle j = FetchOutcome.err m ∧
        is_rate_limited m = true) →
      oracle i = FetchOutcome.ok [] rel ris →
      FullScan.get_keyword_data oracle kw cat
        = { FullScan.init_result kw cat with error := some "No data" } ∧
      NicheScanner.get_keyword_data oracle kw cat
        = { NicheScanner.init_result kw cat with error := some "No data" }) := by
  have hmr : NicheScanner.MAX_RETRIES = FullScan.MAX_RETRIES := rfl
  refine ⟨?_, ?_, ?_⟩
  · intro hall
    constructor
    · rw [FullScan.get_keyword_data,
        FullScan.go_skip oracle kw cat FullScan.MAX_RETRIES
          FullScan.MAX_RETRIES 0 (le_refl _)
          (fun j hj => by simpa using hall j hj),
        Nat.sub_self]
      rfl
    · rw [NicheScanner.get_keyword_data, hmr,
        NicheScanner.go_skip_niche oracle kw cat FullScan.MAX_RETRIES
          FullScan.MAX_RETRIES 0 (le_refl _)
          (fun j hj => by simpa using hall j hj),
        Nat.sub_self]
      rfl
  · intro i msg hi hpre hok hnr
    obtain ⟨k, hk⟩ : ∃ k, FullScan.MAX_RETRIES - i = k + 1 :=
      ⟨FullScan.MAX_RETRIES - i - 1, by
        unfold FullScan.MAX_RETRIES at *
        omega⟩
    constructor
    · rw [FullScan.get_keyword_data,
        FullScan.go_skip oracle kw cat i FullScan.MAX_RETRIES 0
          (by omega) (fun j hj => by simpa using hpre j hj), hk]
      simp [FullScan.get_keyword_data_go, hok, hnr]
    · rw [NicheScanner.get_keyword_data, hmr,
        NicheScanner.go_skip_niche oracle kw cat i FullScan.MAX_RETRIES 0
          (by omega) (fun j hj => by simpa using hpre j hj), hk]
      simp [NicheScanner.get_keyword_data_go, hok, hnr]
  · intro i rel ris hi hpre hok
    obtain ⟨k, hk⟩ : ∃ k, FullScan.MAX_RETRIES - i = k + 1 :=
      ⟨FullScan.MAX_RETRIES - i - 1, by
        unfold FullScan.MAX_RETRIES at *
        omega⟩
    constructor
    · rw [FullScan.get_keyword_data,
        FullScan.go_skip oracle kw cat i FullScan.MAX_RETRIES 0
          (by omega) (fun j hj => by simpa using hpre j hj), hk]
      simp [FullScan.get_keyword_data_go, hok]
    · rw [NicheScanner.get_keyword_data, hmr,
        NicheScanner.go_skip_niche oracle kw cat i FullScan.MAX_RETRIES 0
          (by omega) (fun j hj => by simpa using hpre j hj), hk]
      simp [NicheScanner.get_keyword_data_go, hok]

/-- C6 witness: after one rate-limited failure (a '429' message), a second,
ordinary failure is terminal: `full_scan` stores the message truncated to
50 characters, `niche_scanner` stores it in full. -/
theorem C6_retry_classification_witness :
    FullScan.get_keyword_data
        (fun j => if j = 0 then FetchOutcome.err "429" else FetchOutcome.err "boom")
        "kw" "cat"
      = { FullScan.init_result "kw" "cat" with
          error := some (py_take50 "boom") } ∧
    NicheScanner.get_keyword_data
        (fun j => if j = 0 then FetchOutcome.err "429" else FetchOutcome.err "boom")
        "kw" "cat"
      = { NicheScanner.init_result "kw" "cat" with error := some "boom" } :=
  (C6_retry_classification
      (fun j => if j = 0 then FetchOutcome.err "429" else FetchOutcome.err "boom")
      "kw" "cat").2.1 1 "boom" (by decide)
    (fun j hj => ⟨"429", by
      have hj0 : j = 0 := by omega
      subst hj0
      exact ⟨rfl, by decide⟩⟩)
    rfl (by decide)
